import Mathlib

/-!
Verification of the "Hacker Stories" tutorial snapshots.

The repository holds several snapshots of the same single-page UI:
the styled-components snapshot `src/App.jsx`, the TypeScript snapshot
(`unnamed/part_000`), the CSS-modules snapshot (`unnamed/part_004`), and
an earlier snapshot that keeps the list in plain `useState`
(`unnamed/part_002`).  This file embeds the data model, the
`storiesReducer` of each snapshot, the `useStorageState` local-storage
hook, the client-side search filter, and the list each snapshot passes to
its `List` component, and proves the frozen claims about them.
-/

/-- A story, after the `Story` type of the TypeScript snapshot
(`unnamed/part_000`, lines 7-14): `objectID`, `url`, `title`, `author`,
`num_comments`, `points`. -/
structure Story where
  objectID : String
  url : String
  title : String
  author : String
  num_comments : Nat
  points : Nat
deriving DecidableEq

/-- The reducer state, after `StoriesState` of the TypeScript snapshot
(lines 18-22): the fetched list plus the two flags. -/
structure StoriesState where
  data : List Story
  isLoading : Bool
  isError : Bool
deriving DecidableEq

/-- The four action shapes handled by `storiesReducer` (TypeScript snapshot,
lines 24-42).  The reducer's `default` branch throws, so the embedded action
type is closed over exactly these four constructors. -/
inductive StoriesAction where
  | init : StoriesAction
  | success : List Story → StoriesAction
  | failure : StoriesAction
  | remove : Story → StoriesAction
deriving DecidableEq

/-- The `storiesReducer` of the styled-components snapshot
(`src/App.jsx`, lines 116-147).  Each branch spreads the previous state and
overrides the listed fields; `REMOVE_STORY` keeps the stories whose
`objectID` differs from the payload's. -/
def storiesReducer (state : StoriesState) (action : StoriesAction) : StoriesState :=
  match action with
  | .init => { state with isLoading := true, isError := false }
  | .success payload => { state with isLoading := false, isError := false, data := payload }
  | .failure => { state with isLoading := false, isError := true }
  | .remove payload =>
      { state with data := state.data.filter (fun story => payload.objectID != story.objectID) }

/-- The `storiesReducer` of the TypeScript snapshot (`unnamed/part_000`,
lines 71-102), translated separately so the snapshots can be compared. -/
def storiesReducerTS (state : StoriesState) (action : StoriesAction) : StoriesState :=
  match action with
  | .init => { state with isLoading := true, isError := false }
  | .success payload => { state with isLoading := false, isError := false, data := payload }
  | .failure => { state with isLoading := false, isError := true }
  | .remove payload =>
      { state with data := state.data.filter (fun story => payload.objectID != story.objectID) }

/-- The `storiesReducer` of the CSS-modules snapshot (`unnamed/part_004`,
lines 32-63), translated separately so the snapshots can be compared. -/
def storiesReducerCssMod (state : StoriesState) (action : StoriesAction) : StoriesState :=
  match action with
  | .init => { state with isLoading := true, isError := false }
  | .success payload => { state with isLoading := false, isError := false, data := payload }
  | .failure => { state with isLoading := false, isError := true }
  | .remove payload =>
      { state with data := state.data.filter (fun story => payload.objectID != story.objectID) }

/-- The initial reducer state `{ data: [], isLoading: false, isError: false }`
passed to `useReducer` (`src/App.jsx`, lines 165-168). -/
def initialStoriesState : StoriesState :=
  { data := [], isLoading := false, isError := false }

/-- Dispatching a list of actions in order through `storiesReducer`,
starting from `s`: the reachable states of the reducer. -/
def applyActions (s : StoriesState) : List StoriesAction → StoriesState
  | [] => s
  | a :: acts => applyActions (storiesReducer s a) acts

/-- The list computed by `handleRemoveStory` in the `useState` snapshot
(`unnamed/part_002`, lines 94-100) before it is handed to `setStories`. -/
def handleRemoveStory (stories : List Story) (item : Story) : List Story :=
  stories.filter (fun story => item.objectID != story.objectID)

/-- JavaScript `toLowerCase()`, character by character. -/
def jsToLower (s : String) : String :=
  ⟨s.data.map Char.toLower⟩

/-- Whether `needle` occurs at the start of `hay` (character lists). -/
def chStarts : List Char → List Char → Bool
  | [], _ => true
  | _ :: _, [] => false
  | a :: as, b :: bs => a == b && chStarts as bs

/-- Whether `needle` occurs contiguously anywhere in `hay`:
JavaScript `hay.includes(needle)` on the character level. -/
def chContains (needle : List Char) : List Char → Bool
  | [] => chStarts needle []
  | c :: t => chStarts needle (c :: t) || chContains needle t

/-- JavaScript `hay.includes(needle)` for strings. -/
def jsIncludes (hay needle : String) : Bool :=
  chContains needle.data hay.data

/-- The filter predicate of `searchedStories`
(`src/App.jsx`, lines 211-213; identically in the other snapshots):
`story.title.toLowerCase().includes(searchTerm.toLowerCase())`. -/
def matchesSearch (story : Story) (term : String) : Bool :=
  jsIncludes (jsToLower story.title) (jsToLower term)

/-- `searchedStories` of the TypeScript snapshot (`unnamed/part_000`,
lines 161-163). -/
def searchedStoriesTS (data : List Story) (term : String) : List Story :=
  data.filter (fun story => matchesSearch story term)

/-- `searchedStories` of the CSS-modules snapshot (`unnamed/part_004`,
lines 125-128). -/
def searchedStoriesCssMod (data : List Story) (term : String) : List Story :=
  data.filter (fun story => matchesSearch story term)

/-- The list the styled-components snapshot passes to its `List` component
when it is not loading: `src/App.jsx` line 232 passes `stories.data`
(the `searchedStories` it computes on lines 211-213 is left unused). -/
def renderedListStyled (s : StoriesState) (_term : String) : Option (List Story) :=
  if s.isLoading then none else some s.data

/-- The list the TypeScript snapshot passes to its `List` component when it
is not loading: `unnamed/part_000` line 184 passes `searchedStories`. -/
def renderedListTS (s : StoriesState) (term : String) : Option (List Story) :=
  if s.isLoading then none else some (searchedStoriesTS s.data term)

/-- The list the CSS-modules snapshot passes to its `List` component when it
is not loading: `unnamed/part_004` passes `searchedStories`. -/
def renderedListCssMod (s : StoriesState) (term : String) : Option (List Story) :=
  if s.isLoading then none else some (searchedStoriesCssMod s.data term)

/-- The browser's local storage, as a partial map from keys to strings. -/
def Store : Type := String → Option String

/-- `localStorage.getItem(key)`: the stored string, or null when absent. -/
def getItem (store : Store) (key : String) : Option String :=
  store key

/-- `localStorage.setItem(key, value)`. -/
def setItem (store : Store) (key value : String) : Store :=
  fun k => if k = key then some value else store k

/-- JavaScript `a || b` for `a : string | null`: `b` when `a` is null or the
empty string (both falsy), otherwise `a`. -/
def jsOrElse (a : Option String) (b : String) : String :=
  match a with
  | none => b
  | some s => if s = "" then b else s

/-- The initial value of `useStorageState(key, initialState)`
(`src/App.jsx`, lines 96-98): `localStorage.getItem(key) || initialState`. -/
def useStorageStateInit (store : Store) (key initialState : String) : String :=
  jsOrElse (getItem store key) initialState

/-- Mounting `useStorageState(key, initialState)` against `store`: the hook
computes its initial value, then its effect (`src/App.jsx`, lines 100-102)
stores that value under `key`.  Returns the hook value and the store. -/
def mountStorageState (store : Store) (key initialState : String) : String × Store :=
  let value := useStorageStateInit store key initialState
  (value, setItem store key value)

/-- Updating the hook value with `setValue`: the new value becomes current
and the effect stores it under `key`. -/
def setStorageState (key : String) (st : String × Store) (newValue : String) : String × Store :=
  (newValue, setItem st.2 key newValue)

/-- The empty local storage. -/
def emptyStore : Store := fun _ => none

/-- Whether an action is fetch-related (`STORIES_FETCH_INIT`,
`STORIES_FETCH_SUCCESS` or `STORIES_FETCH_FAILURE`). -/
def isFetchAction : StoriesAction → Bool
  | .init => true
  | .success _ => true
  | .failure => true
  | .remove _ => false

/-- Whether an action completes a fetch (`STORIES_FETCH_SUCCESS` or
`STORIES_FETCH_FAILURE`). -/
def isCompletionAction : StoriesAction → Bool
  | .success _ => true
  | .failure => true
  | _ => false

/-- The most recent (last) fetch-related action of a dispatch sequence,
if any: later elements of the list take precedence. -/
def lastFetchAction : List StoriesAction → Option StoriesAction
  | [] => none
  | a :: acts =>
      match lastFetchAction acts with
      | some b => some b
      | none => if isFetchAction a then some a else none

/-- The most recent (last) fetch-completing action of a dispatch sequence,
if any. -/
def lastCompletionAction : List StoriesAction → Option StoriesAction
  | [] => none
  | a :: acts =>
      match lastCompletionAction acts with
      | some b => some b
      | none => if isCompletionAction a then some a else none

/-- The payload of the most recent (last) `STORIES_FETCH_SUCCESS` action of a
dispatch sequence, if any. -/
def lastSuccessPayload : List StoriesAction → Option (List Story)
  | [] => none
  | a :: acts =>
      match lastSuccessPayload acts with
      | some hits => some hits
      | none =>
          match a with
          | .success hits => some hits
          | _ => none

/-- The first sample story of `initialStories` (`unnamed/part_002`,
lines 34-42). -/
def storyReact : Story :=
  { objectID := "0", url := "https://reactjs.org/", title := "React",
    author := "Jordan Walke", num_comments := 3, points := 4 }

/-- The second sample story of `initialStories` (`unnamed/part_002`,
lines 43-50). -/
def storyRedux : Story :=
  { objectID := "1", url := "https://redux.js.org/", title := "Redux",
    author := "Dan Abramov, Andrew Clark", num_comments := 2, points := 5 }

/-- Helper: after dispatching `acts` from `s`, the error flag is decided by
the most recent fetch-related action: true after a failure, false after an
init or a success, unchanged when there is none. -/
theorem isError_applyActions (acts : List StoriesAction) : ∀ s : StoriesState,
    (applyActions s acts).isError =
      (match lastFetchAction acts with
       | some StoriesAction.failure => true
       | some _ => false
       | none => s.isError) := by
  induction acts with
  | nil => intro s; rfl
  | cons a acts ih =>
    intro s
    show (applyActions (storiesReducer s a) acts).isError = _
    rw [ih]
    cases h : lastFetchAction acts with
    | some b =>
      simp only [lastFetchAction, h]
      cases b <;> rfl
    | none =>
      simp only [lastFetchAction, h]
      cases a <;> rfl

/-- Helper: dispatching only fetch-completing actions leaves `data` at the
payload of the last success, or untouched when no success occurs. -/
theorem data_after_completions (acts : List StoriesAction) : ∀ s : StoriesState,
    (∀ a ∈ acts, isCompletionAction a = true) →
    (applyActions s acts).data = (lastSuccessPayload acts).getD s.data := by
  induction acts with
  | nil => intro s _; rfl
  | cons a acts ih =>
    intro s h
    have ha : isCompletionAction a = true := h a (List.mem_cons_self a acts)
    have hs : ∀ b ∈ acts, isCompletionAction b = true :=
      fun b hb => h b (List.mem_cons_of_mem a hb)
    show (applyActions (storiesReducer s a) acts).data = _
    rw [ih _ hs]
    cases a with
    | init => simp [isCompletionAction] at ha
    | remove p => simp [isCompletionAction] at ha
    | success hits =>
      simp only [lastSuccessPayload, storiesReducer]
      cases hls : lastSuccessPayload acts <;> rfl
    | failure =>
      simp only [lastSuccessPayload, storiesReducer]
      cases hls : lastSuccessPayload acts <;> rfl

/-- Helper: if the loading and error flags are not both set, they are not
both set after any further dispatch. -/
theorem mutex_preserved (acts : List StoriesAction) : ∀ s : StoriesState,
    (s.isLoading && s.isError) = false →
    ((applyActions s acts).isLoading && (applyActions s acts).isError) = false := by
  induction acts with
  | nil => intro s h; exact h
  | cons a acts ih =>
    intro s h
    show ((applyActions (storiesReducer s a) acts).isLoading &&
          (applyActions (storiesReducer s a) acts).isError) = false
    apply ih
    cases a <;> simp [storiesReducer] <;> simp_all

/-- Helper: the remove filter of the source, restated with the claim's
predicate (keep the stories whose objectID differs from the payload's). -/
theorem remove_filter_eq (l : List Story) (p : Story) :
    l.filter (fun story => p.objectID != story.objectID) =
    l.filter (fun story => decide (story.objectID ≠ p.objectID)) := by
  apply List.filter_congr
  intro st _
  by_cases h : st.objectID = p.objectID
  · simp [h]
  · simp [h, bne_iff_ne, Ne.symm h]

/-- Claim C1, counterexample: the original "iff" fails.  After dispatching
a failure and then a new fetch init from the initial state, the most recent
fetch-completing action is the failure, yet `isError` is false, because
`STORIES_FETCH_INIT` clears the error flag. -/
theorem isError_not_iff_lastCompletion :
    lastCompletionAction [StoriesAction.failure, StoriesAction.init] =
      some StoriesAction.failure ∧
    (applyActions initialStoriesState
      [StoriesAction.failure, StoriesAction.init]).isError = false :=
  ⟨rfl, rfl⟩

/-- Claim C1, amended: `STORIES_FETCH_FAILURE` yields `isError = true` and
`isLoading = false`; `STORIES_FETCH_INIT` and `STORIES_FETCH_SUCCESS` yield
`isError = false`; `REMOVE_STORY` leaves `isError` unchanged (no other
action sets it to true); and in any state reached from the initial state,
`isError` is true if and only if the most recent fetch-related action
(init, success or failure) was a failure. -/
theorem storiesReducer_error_flag :
    (∀ s : StoriesState, storiesReducer s StoriesAction.failure =
        { data := s.data, isLoading := false, isError := true }) ∧
    (∀ s : StoriesState, (storiesReducer s StoriesAction.init).isError = false) ∧
    (∀ (s : StoriesState) (hits : List Story),
        (storiesReducer s (StoriesAction.success hits)).isError = false) ∧
    (∀ (s : StoriesState) (p : Story),
        (storiesReducer s (StoriesAction.remove p)).isError = s.isError) ∧
    (∀ acts : List StoriesAction,
        (applyActions initialStoriesState acts).isError = true ↔
          lastFetchAction acts = some StoriesAction.failure) := by
  refine ⟨fun s => rfl, fun s => rfl, fun s hits => rfl, fun s p => rfl, fun acts => ?_⟩
  rw [isError_applyActions]
  cases h : lastFetchAction acts with
  | none => simp [initialStoriesState]
  | some b => cases b <;> simp

/-- Claim C2: `REMOVE_STORY` keeps exactly the stories of the previous data
whose `objectID` differs from the payload's, in the same relative order
(the result is the corresponding filter, a sublist of the previous data,
with the matching membership); and the `handleRemoveStory` filter of the
`useState` snapshot computes the same list. -/
theorem remove_story_filters :
    (∀ (s : StoriesState) (p : Story),
        (storiesReducer s (StoriesAction.remove p)).data =
          s.data.filter (fun story => decide (story.objectID ≠ p.objectID)) ∧
        ((storiesReducer s (StoriesAction.remove p)).data).Sublist s.data ∧
        (∀ st : Story, st ∈ (storiesReducer s (StoriesAction.remove p)).data ↔
            st ∈ s.data ∧ st.objectID ≠ p.objectID)) ∧
    (∀ (l : List Story) (p : Story),
        handleRemoveStory l p =
          l.filter (fun story => decide (story.objectID ≠ p.objectID)) ∧
        (handleRemoveStory l p).Sublist l ∧
        (∀ st : Story, st ∈ handleRemoveStory l p ↔
            st ∈ l ∧ st.objectID ≠ p.objectID)) := by
  constructor
  · intro s p
    refine ⟨remove_filter_eq s.data p, List.filter_sublist _, fun st => ?_⟩
    show st ∈ s.data.filter (fun story => p.objectID != story.objectID) ↔ _
    rw [remove_filter_eq, List.mem_filter]
    simp
  · intro l p
    refine ⟨remove_filter_eq l p, List.filter_sublist _, fun st => ?_⟩
    show st ∈ l.filter (fun story => p.objectID != story.objectID) ↔ _
    rw [remove_filter_eq, List.mem_filter]
    simp

/-- Claim C3: `STORIES_FETCH_SUCCESS` overwrites `data` with its payload,
independent of the previous data; hence after any sequence of fetch
completions the data equals the payload of the most recent successful
fetch. -/
theorem fetch_success_overwrites :
    (∀ (s : StoriesState) (hits : List Story),
        (storiesReducer s (StoriesAction.success hits)).data = hits) ∧
    (∀ (s : StoriesState) (acts : List StoriesAction) (hits : List Story),
        (∀ a ∈ acts, isCompletionAction a = true) →
        lastSuccessPayload acts = some hits →
        (applyActions s acts).data = hits) := by
  refine ⟨fun s hits => rfl, fun s acts hits hc hl => ?_⟩
  rw [data_after_completions acts s hc, hl]
  rfl

/-- Claim C3, witness: a success followed by a failure leaves the data at
the payload of the success. -/
theorem fetch_success_overwrites_witness :
    (applyActions initialStoriesState
      [StoriesAction.success [storyReact], StoriesAction.failure]).data =
      [storyReact] :=
  fetch_success_overwrites.2 initialStoriesState
    [StoriesAction.success [storyReact], StoriesAction.failure] [storyReact]
    (by decide) rfl

/-- Claim C4, counterexample: the styled-components snapshot does not
search the fetched list.  While not loading it presents `stories.data`
unfiltered to its `List` component: a story whose lowercased title does not
contain the lowercased search term is still presented. -/
theorem styled_render_unfiltered :
    renderedListStyled
        { data := [storyReact], isLoading := false, isError := false } "Redux" =
      some [storyReact] ∧
    matchesSearch storyReact "Redux" = false :=
  ⟨rfl, by decide⟩

/-- Claim C4, amended: in the TypeScript and CSS-modules snapshots, while
not loading, the list presented to the `List` component consists exactly of
those stories whose lowercased title contains the lowercased search term as
a substring, in the order of the fetched data; the styled-components
snapshot presents the unfiltered data instead. -/
theorem search_filters_rendered_list :
    ∀ (s : StoriesState) (term : String), s.isLoading = false →
      ∃ l : List Story,
        renderedListTS s term = some l ∧
        renderedListCssMod s term = some l ∧
        l.Sublist s.data ∧
        (∀ st : Story, st ∈ l ↔ st ∈ s.data ∧ matchesSearch st term = true) := by
  intro s term h
  refine ⟨searchedStoriesTS s.data term, ?_, ?_, ?_, fun st => ?_⟩
  · simp [renderedListTS, h]
  · simp [renderedListCssMod, h, searchedStoriesCssMod, searchedStoriesTS]
  · exact List.filter_sublist s.data
  · simp [searchedStoriesTS, List.mem_filter]

/-- Claim C4, witness: with two fetched stories and the term "react", the
rendered list exists and satisfies the filter characterisation. -/
theorem search_filters_rendered_list_witness :
    ∃ l : List Story,
      renderedListTS
          { data := [storyReact, storyRedux], isLoading := false, isError := false }
          "react" = some l ∧
      renderedListCssMod
          { data := [storyReact, storyRedux], isLoading := false, isError := false }
          "react" = some l ∧
      l.Sublist [storyReact, storyRedux] ∧
      (∀ st : Story, st ∈ l ↔ st ∈ [storyReact, storyRedux] ∧
          matchesSearch st "react" = true) :=
  search_filters_rendered_list
    { data := [storyReact, storyRedux], isLoading := false, isError := false }
    "react" rfl

/-- Claim C5, counterexample: the snapshots do not all select the same list
to render.  On the same state and search term, the styled-components
snapshot presents the unfiltered data while the TypeScript snapshot
presents the filtered list. -/
theorem snapshots_render_differ :
    renderedListStyled
        { data := [storyReact], isLoading := false, isError := false } "Redux" ≠
    renderedListTS
        { data := [storyReact], isLoading := false, isError := false } "Redux" := by
  decide

/-- Claim C5, amended: the `storiesReducer` definitions of the
styled-components, TypeScript and CSS-modules snapshots compute the same
function, and the TypeScript and CSS-modules snapshots select the same
list to render from the same state and search term; the styled-components
snapshot selects the unfiltered data instead. -/
theorem reducers_agree :
    (∀ (s : StoriesState) (a : StoriesAction),
        storiesReducer s a = storiesReducerTS s a) ∧
    (∀ (s : StoriesState) (a : StoriesAction),
        storiesReducerTS s a = storiesReducerCssMod s a) ∧
    (∀ (s : StoriesState) (term : String),
        renderedListTS s term = renderedListCssMod s term) := by
  refine ⟨fun s a => ?_, fun s a => ?_, fun s term => rfl⟩ <;> cases a <;> rfl

/-- Claim C6, counterexample: a stored value is not always restored.  When
the empty string is stored under the key, the hook yields the initial state
"React" rather than the stored (present) value "", because the stored value
is combined with the default using JavaScript logical-or. -/
theorem stored_empty_not_returned :
    getItem (setItem emptyStore "search" "") "search" = some "" ∧
    (mountStorageState (setItem emptyStore "search" "") "search" "React").1 =
      "React" ∧
    ("React" : String) ≠ "" :=
  ⟨rfl, rfl, by decide⟩

/-- Claim C6, amended: `useStorageState(key, initialState)` yields the value
previously stored under `key` when a non-empty one is present, and
`initialState` when none is stored; after mounting and after every update
the stored value under `key` equals the current value; and a stored
non-empty term survives re-initialisation. -/
theorem useStorageState_roundtrip :
    (∀ (store : Store) (key initialState v : String),
        getItem store key = some v → v ≠ "" →
        (mountStorageState store key initialState).1 = v) ∧
    (∀ (store : Store) (key initialState : String),
        getItem store key = none →
        (mountStorageState store key initialState).1 = initialState) ∧
    (∀ (store : Store) (key initialState : String),
        getItem (mountStorageState store key initialState).2 key =
          some (mountStorageState store key initialState).1) ∧
    (∀ (key : String) (st : String × Store) (v : String),
        getItem (setStorageState key st v).2 key = some v) ∧
    (∀ (store : Store) (key init1 init2 v : String),
        getItem store key = some v → v ≠ "" →
        (mountStorageState (mountStorageState store key init1).2 key init2).1 =
          v) := by
  have hmount : ∀ (store : Store) (key initialState v : String),
      getItem store key = some v → v ≠ "" →
      (mountStorageState store key initialState).1 = v := by
    intro store key initialState v hv hne
    show jsOrElse (getItem store key) initialState = v
    rw [hv]
    simp [jsOrElse, hne]
  refine ⟨hmount, ?_, ?_, ?_, ?_⟩
  · intro store key initialState hv
    show jsOrElse (getItem store key) initialState = initialState
    rw [hv]
    rfl
  · intro store key initialState
    simp [mountStorageState, getItem, setItem]
  · intro key st v
    simp [setStorageState, getItem, setItem]
  · intro store key init1 init2 v hv hne
    apply hmount
    · show getItem (setItem store key (useStorageStateInit store key init1)) key =
        some v
      have hV : useStorageStateInit store key init1 = v := by
        show jsOrElse (getItem store key) init1 = v
        rw [hv]
        simp [jsOrElse, hne]
      rw [hV]
      simp [getItem, setItem]
    · exact hne

/-- Claim C6, witness: a non-empty stored term "Redux" is restored on
re-initialisation even though the default is "React". -/
theorem useStorageState_roundtrip_witness :
    (mountStorageState (setItem emptyStore "search" "Redux") "search" "React").1 =
      "Redux" :=
  useStorageState_roundtrip.1 (setItem emptyStore "search" "Redux") "search"
    "React" "Redux" rfl (by decide)

/-- Claim C8: starting from the initial state, no sequence of reducer
actions reaches a state in which `isLoading` and `isError` are both true:
init yields loading-without-error, success and failure clear loading, and
remove changes neither flag. -/
theorem loading_error_mutex :
    ∀ acts : List StoriesAction,
      ((applyActions initialStoriesState acts).isLoading &&
        (applyActions initialStoriesState acts).isError) = false :=
  fun acts => mutex_preserved acts initialStoriesState rfl

/-- Claim C9: `STORIES_FETCH_FAILURE` and `STORIES_FETCH_INIT` leave the
previously fetched data unchanged; after a failure the state is not loading,
so the styled snapshot still presents the retained data (alongside its
error message) rather than a cleared list. -/
theorem failure_init_preserve_data :
    ∀ s : StoriesState,
      (storiesReducer s StoriesAction.failure).data = s.data ∧
      (storiesReducer s StoriesAction.init).data = s.data ∧
      (storiesReducer s StoriesAction.failure).isLoading = false ∧
      (∀ term : String,
        renderedListStyled (storiesReducer s StoriesAction.failure) term =
          some s.data) :=
  fun s => ⟨rfl, rfl, rfl, fun term => rfl⟩

/-- Claim C10: an empty cached value is treated as absent.  When the empty
string is stored under `key`, `useStorageState(key, initialState)` yields
`initialState`; and whenever `initialState` is non-empty the hook can never
yield the empty string, so an empty search term is never restored. -/
theorem empty_cache_treated_absent :
    (∀ (store : Store) (key initialState : String),
        getItem store key = some "" →
        (mountStorageState store key initialState).1 = initialState) ∧
    (∀ (store : Store) (key initialState : String), initialState ≠ "" →
        (mountStorageState store key initialState).1 ≠ "") := by
  constructor
  · intro store key initialState h
    show jsOrElse (getItem store key) initialState = initialState
    rw [h]
    rfl
  · intro store key initialState h
    show jsOrElse (getItem store key) initialState ≠ ""
    cases hg : getItem store key with
    | none => simpa [jsOrElse] using h
    | some s =>
      by_cases hs : s = ""
      · simpa [jsOrElse, hs] using h
      · simpa [jsOrElse, hs] using hs

/-- Claim C10, witness: with "" stored under "search" and default "React",
the hook yields "React". -/
theorem empty_cache_treated_absent_witness :
    (mountStorageState (setItem emptyStore "search" "") "search" "React").1 =
      "React" :=
  empty_cache_treated_absent.1 (setItem emptyStore "search" "") "search" "React"
    rfl
